import Mathlib

/-!
Shallow embedding of the github-security-checker core engine
(packages/core/src: types.ts, scanner.ts, checks/*.ts, reports/soc2.ts,
fixer.ts) and proofs about its specification.

Effectful TypeScript code is embedded by passing the outcome of every
provider (Octokit) call explicitly: each async sub-query becomes a field
of an environment structure holding `Except ApiError result`, and a
`try/catch` becomes a `match` on that `Except`.  Machine integers do not
overflow in this code (scores and counts are tiny), so `Nat`/`Int` are
used directly.
-/

namespace GhSec

/-- Severity from types.ts: `'critical' | 'high' | 'medium' | 'low' | 'info'`. -/
inductive Severity where
  | critical
  | high
  | medium
  | low
  | info
deriving DecidableEq, Repr

/-- CheckCategory from types.ts. -/
inductive CheckCategory where
  | branchProtection
  | securityFeatures
  | accessControl
  | repositorySettings
  | secrets
  | dependencies
deriving DecidableEq, Repr

/-- TypeScript `unknown` values stored in `currentValue` / `expectedValue`
(the source stores numbers and strings there). -/
inductive UVal where
  | num (n : Int)
  | str (s : String)
deriving DecidableEq, Repr

/-- SecurityFinding from types.ts. -/
structure SecurityFinding where
  id : String
  category : CheckCategory
  severity : Severity
  title : String
  description : String
  recommendation : String
  documentationUrl : Option String := none
  soc2Control : Option String := none
  currentValue : Option UVal := none
  expectedValue : Option UVal := none
deriving DecidableEq, Repr

/-- An error thrown by the provider (Octokit).  The source only inspects
`error.status` (an HTTP status, absent on non-HTTP errors) and
`error.message`. -/
structure ApiError where
  status : Option Nat := none
  message : String := ""
deriving DecidableEq, Repr

/-- scanner.ts `severityOrder` (line 62):
`['critical', 'high', 'medium', 'low', 'info']`. -/
def severityOrder : List Severity :=
  [.critical, .high, .medium, .low, .info]

/-- scanner.ts `calculateScore` deduction table (line 107):
`{ critical: 25, high: 15, medium: 8, low: 3, info: 0 }`. -/
def severityDeduction : Severity → Int
  | .critical => 25
  | .high => 15
  | .medium => 8
  | .low => 3
  | .info => 0

/-- scanner.ts `GitHubSecurityScanner.calculateScore` (lines 105-110):
start at 100, subtract the deduction for each finding, clamp at 0 with
`Math.max`. -/
def calculateScore (findings : List SecurityFinding) : Int :=
  max 0 (findings.foldl (fun score finding => score - severityDeduction finding.severity) 100)

theorem severityDeduction_nonneg (s : Severity) : 0 ≤ severityDeduction s := by
  cases s <;> simp [severityDeduction]

theorem calculateScore_foldl (findings : List SecurityFinding) (a : Int) :
    findings.foldl (fun score finding => score - severityDeduction finding.severity) a
      = a - (findings.map (fun f => severityDeduction f.severity)).sum := by
  induction findings generalizing a with
  | nil => simp
  | cons f fs ih =>
      simp only [List.foldl_cons, List.map_cons, List.sum_cons, ih]
      ring

theorem deduction_sum_nonneg (findings : List SecurityFinding) :
    0 ≤ (findings.map (fun f => severityDeduction f.severity)).sum := by
  induction findings with
  | nil => simp
  | cons f fs ih =>
      simp only [List.map_cons, List.sum_cons]
      have := severityDeduction_nonneg f.severity
      omega

/-- Claim C2: the score calculator starts at 100, subtracts 25 per critical,
15 per high, 8 per medium, 3 per low and 0 per info finding in the retained
list (linearly, no deduplication), clamping only at a minimum of 0; hence for
every finding list the score is an integer in [0,100], the empty list scores
exactly 100, and appending any finding never increases the score. -/
theorem calculateScore_spec :
    (severityDeduction .critical = 25 ∧ severityDeduction .high = 15 ∧
      severityDeduction .medium = 8 ∧ severityDeduction .low = 3 ∧
      severityDeduction .info = 0) ∧
    (∀ F : List SecurityFinding,
      calculateScore F
        = max 0 (100 - (F.map (fun f => severityDeduction f.severity)).sum)) ∧
    (∀ F : List SecurityFinding, 0 ≤ calculateScore F ∧ calculateScore F ≤ 100) ∧
    calculateScore [] = 100 ∧
    (∀ (F : List SecurityFinding) (f : SecurityFinding),
      calculateScore (F ++ [f]) ≤ calculateScore F) := by
  refine ⟨⟨rfl, rfl, rfl, rfl, rfl⟩, ?_, ?_, by simp [calculateScore], ?_⟩
  · intro F
    simp [calculateScore, calculateScore_foldl]
  · intro F
    have h := deduction_sum_nonneg F
    constructor
    · simp [calculateScore, calculateScore_foldl]
    · simp only [calculateScore, calculateScore_foldl]
      omega
  · intro F f
    have h := severityDeduction_nonneg f.severity
    simp only [calculateScore, calculateScore_foldl, List.map_append, List.sum_append,
      List.map_cons, List.map_nil, List.sum_cons, List.sum_nil]
    omega

/-! ## checks/branch-protection.ts -/

/-- Shape of `required_pull_request_reviews` in the branch-protection
response used by checks/branch-protection.ts. -/
structure ReviewSettings where
  dismiss_stale_reviews : Bool
  require_code_owner_reviews : Bool
  required_approving_review_count : Option Nat
deriving DecidableEq, Repr

/-- A `{ enabled: boolean }` sub-object of the protection response (accessed
with optional chaining in the source, hence wrapped in `Option` at use
sites). -/
structure EnabledFlag where
  enabled : Bool
deriving DecidableEq, Repr

/-- Shape of `required_status_checks` in the protection response. -/
structure StatusChecks where
  strict : Bool
  contexts : List String
deriving DecidableEq, Repr

/-- The fields of the `octokit.repos.getBranchProtection` response read by
checks/branch-protection.ts. -/
structure ProtectionData where
  required_pull_request_reviews : Option ReviewSettings
  enforce_admins : Option EnabledFlag
  required_status_checks : Option StatusChecks
  allow_force_pushes : Option EnabledFlag
  allow_deletions : Option EnabledFlag
  required_conversation_resolution : Option EnabledFlag
  required_signatures : Option EnabledFlag
  required_linear_history : Option EnabledFlag
deriving DecidableEq, Repr

/-- TypeScript optional chaining `x?.enabled` (falsy when `x` is absent). -/
def enabledOf (x : Option EnabledFlag) : Bool :=
  match x with
  | some f => f.enabled
  | none => false

/-- Finding pushed at branch-protection.ts lines 21-30. -/
def bpNoPrReviews (branch : String) : SecurityFinding :=
  { id := "bp-no-pr-reviews"
    category := .branchProtection
    severity := .high
    title := "Pull request reviews not required"
    description := "The " ++ branch ++ " branch does not require pull request reviews before merging."
    recommendation := "Enable \"Require pull request reviews before merging\" in branch protection settings."
    documentationUrl := some "https://docs.github.com/en/repositories/configuring-branches-and-merges-in-your-repository/managing-protected-branches/about-protected-branches#require-pull-request-reviews-before-merging"
    soc2Control := some "CC6.1" }

/-- Finding pushed at branch-protection.ts lines 35-44. -/
def bpStaleReviews : SecurityFinding :=
  { id := "bp-stale-reviews"
    category := .branchProtection
    severity := .medium
    title := "Stale reviews not dismissed"
    description := "Approved reviews are not dismissed when new commits are pushed."
    recommendation := "Enable \"Dismiss stale pull request approvals when new commits are pushed\"."
    documentationUrl := some "https://docs.github.com/en/repositories/configuring-branches-and-merges-in-your-repository/managing-protected-branches/about-protected-branches#dismiss-stale-pull-request-approvals-when-new-commits-are-pushed"
    soc2Control := some "CC6.1" }

/-- Finding pushed at branch-protection.ts lines 48-57. -/
def bpNoCodeownerReview : SecurityFinding :=
  { id := "bp-no-codeowner-review"
    category := .branchProtection
    severity := .medium
    title := "Code owner reviews not required"
    description := "Reviews from code owners are not required for changes to owned files."
    recommendation := "Enable \"Require review from Code Owners\" and create a CODEOWNERS file."
    documentationUrl := some "https://docs.github.com/en/repositories/managing-your-repositorys-settings-and-features/customizing-your-repository/about-code-owners"
    soc2Control := some "CC6.1" }

/-- Finding pushed at branch-protection.ts lines 61-71; `n` is
`reviews.required_approving_review_count || 0`. -/
def bpLowReviewCount (n : Nat) : SecurityFinding :=
  { id := "bp-low-review-count"
    category := .branchProtection
    severity := .medium
    title := "Insufficient required reviewers"
    description := "Only " ++ toString n ++ " reviewer(s) required. Best practice is at least 2."
    recommendation := "Increase required approving reviews to at least 2."
    currentValue := some (.num n)
    expectedValue := some (.num 2)
    soc2Control := some "CC6.1" }

/-- Finding pushed at branch-protection.ts lines 77-86. -/
def bpAdminBypass : SecurityFinding :=
  { id := "bp-admin-bypass"
    category := .branchProtection
    severity := .high
    title := "Administrators can bypass protection"
    description := "Repository administrators can bypass branch protection rules."
    recommendation := "Enable \"Do not allow bypassing the above settings\" for administrators."
    documentationUrl := some "https://docs.github.com/en/repositories/configuring-branches-and-merges-in-your-repository/managing-protected-branches/about-protected-branches#do-not-allow-bypassing-the-above-settings"
    soc2Control := some "CC6.1" }

/-- Finding pushed at branch-protection.ts lines 91-100. -/
def bpNoStatusChecks : SecurityFinding :=
  { id := "bp-no-status-checks"
    category := .branchProtection
    severity := .high
    title := "No required status checks"
    description := "No CI/CD status checks are required before merging."
    recommendation := "Configure required status checks (e.g., CI tests, linting) before merging."
    documentationUrl := some "https://docs.github.com/en/repositories/configuring-branches-and-merges-in-your-repository/managing-protected-branches/about-protected-branches#require-status-checks-before-merging"
    soc2Control := some "CC7.1" }

/-- Finding pushed at branch-protection.ts lines 105-113. -/
def bpForcePushAllowed : SecurityFinding :=
  { id := "bp-force-push-allowed"
    category := .branchProtection
    severity := .high
    title := "Force pushes allowed"
    description := "Force pushes are allowed, which can rewrite history and remove commits."
    recommendation := "Disable \"Allow force pushes\" to prevent history rewriting."
    soc2Control := some "CC6.1" }

/-- Finding pushed at branch-protection.ts lines 118-126. -/
def bpDeletionsAllowed : SecurityFinding :=
  { id := "bp-deletions-allowed"
    category := .branchProtection
    severity := .medium
    title := "Branch deletion allowed"
    description := "The protected branch can be deleted."
    recommendation := "Disable \"Allow deletions\" to prevent accidental branch removal."
    soc2Control := some "CC6.1" }

/-- Finding pushed at branch-protection.ts lines 131-139. -/
def bpNoConversationResolution : SecurityFinding :=
  { id := "bp-no-conversation-resolution"
    category := .branchProtection
    severity := .low
    title := "Conversation resolution not required"
    description := "PRs can be merged without resolving all review comments."
    recommendation := "Enable \"Require conversation resolution before merging\"."
    soc2Control := some "CC6.1" }

/-- Finding pushed at branch-protection.ts lines 144-153. -/
def bpNoSignedCommits : SecurityFinding :=
  { id := "bp-no-signed-commits"
    category := .branchProtection
    severity := .medium
    title := "Signed commits not required"
    description := "Commits are not required to be signed with GPG or SSH keys."
    recommendation := "Enable \"Require signed commits\" to verify commit authenticity."
    documentationUrl := some "https://docs.github.com/en/repositories/configuring-branches-and-merges-in-your-repository/managing-protected-branches/about-protected-branches#require-signed-commits"
    soc2Control := some "CC6.1" }

/-- Finding pushed at branch-protection.ts lines 158-167. -/
def bpNoLinearHistory : SecurityFinding :=
  { id := "bp-no-linear-history"
    category := .branchProtection
    severity := .low
    title := "Linear history not required"
    description := "Merge commits are allowed, which can complicate history."
    recommendation := "Enable \"Require linear history\" to enforce squash or rebase merging."
    documentationUrl := some "https://docs.github.com/en/repositories/configuring-branches-and-merges-in-your-repository/managing-protected-branches/about-protected-branches#require-linear-history"
    soc2Control := some "CC6.1" }

/-- Finding pushed in the 404 catch branch, branch-protection.ts lines
172-181. -/
def bpNotEnabled (branch : String) : SecurityFinding :=
  { id := "bp-not-enabled"
    category := .branchProtection
    severity := .critical
    title := "Branch protection not enabled"
    description := "The " ++ branch ++ " branch has no protection rules configured."
    recommendation := "Enable branch protection for the default branch immediately."
    documentationUrl := some "https://docs.github.com/en/repositories/configuring-branches-and-merges-in-your-repository/managing-protected-branches/managing-a-branch-protection-rule"
    soc2Control := some "CC6.1" }

/-- Finding pushed in the 403 catch branch, branch-protection.ts lines
184-193. -/
def bpNotAvailable : SecurityFinding :=
  { id := "bp-not-available"
    category := .branchProtection
    severity := .info
    title := "Branch protection not available"
    description := "Branch protection requires GitHub Pro for private repositories."
    recommendation := "Upgrade to GitHub Pro or make the repository public to enable branch protection."
    documentationUrl := some "https://docs.github.com/en/repositories/configuring-branches-and-merges-in-your-repository/managing-protected-branches/about-protected-branches"
    soc2Control := some "CC6.1" }

/-- checks/branch-protection.ts `checkBranchProtection`: `resp` is the
outcome of the single `octokit.repos.getBranchProtection` call.  On success
the predicates run in source order over the response; in the catch block a
404 yields the single critical `bp-not-enabled` finding, a 403 the single
informational `bp-not-available` finding, and any other error is
rethrown. -/
def checkBranchProtection (resp : Except ApiError ProtectionData) (branch : String) :
    Except ApiError (List SecurityFinding) :=
  match resp with
  | .ok data =>
      let reviewFindings :=
        match data.required_pull_request_reviews with
        | none => [bpNoPrReviews branch]
        | some reviews =>
            (if !reviews.dismiss_stale_reviews then [bpStaleReviews] else []) ++
            (if !reviews.require_code_owner_reviews then [bpNoCodeownerReview] else []) ++
            (if reviews.required_approving_review_count.getD 0 < 2 then
              [bpLowReviewCount (reviews.required_approving_review_count.getD 0)] else [])
      let adminFindings := if !enabledOf data.enforce_admins then [bpAdminBypass] else []
      let statusCheckFindings :=
        match data.required_status_checks with
        | none => [bpNoStatusChecks]
        | some checks => if checks.contexts.length = 0 then [bpNoStatusChecks] else []
      let forcePushFindings := if enabledOf data.allow_force_pushes then [bpForcePushAllowed] else []
      let deletionFindings := if enabledOf data.allow_deletions then [bpDeletionsAllowed] else []
      let conversationFindings :=
        if !enabledOf data.required_conversation_resolution then [bpNoConversationResolution] else []
      let signatureFindings := if !enabledOf data.required_signatures then [bpNoSignedCommits] else []
      let linearHistoryFindings :=
        if !enabledOf data.required_linear_history then [bpNoLinearHistory] else []
      .ok (reviewFindings ++ adminFindings ++ statusCheckFindings ++ forcePushFindings ++
        deletionFindings ++ conversationFindings ++ signatureFindings ++ linearHistoryFindings)
  | .error e =>
      if e.status = some 404 then .ok [bpNotEnabled branch]
      else if e.status = some 403 then .ok [bpNotAvailable]
      else .error e

/-! ## checks/security-features.ts -/

/-- Does the character list `s` start with the pattern `p`?  (Character-level
model of JavaScript `String.prototype.startsWith`.) -/
def charsStartWith : List Char → List Char → Bool
  | _, [] => true
  | [], _ :: _ => false
  | c :: cs, p :: ps => c == p && charsStartWith cs ps

/-- Does the pattern occur anywhere in the character list?  (Character-level
model of JavaScript `String.prototype.includes`.) -/
def charsInclude (s pat : List Char) : Bool :=
  match s with
  | [] => pat.isEmpty
  | _ :: rest => charsStartWith s pat || charsInclude rest pat

/-- JavaScript `s.includes(pat)`. -/
def includesStr (s pat : String) : Bool :=
  charsInclude s.data pat.data

/-- JavaScript `s.startsWith(pat)`. -/
def startsWithStr (s pat : String) : Bool :=
  charsStartWith s.data pat.data

/-- JavaScript `s.toLowerCase()` (ASCII case folding, which is all the
source compares). -/
def toLowerStr (s : String) : String :=
  ⟨s.data.map Char.toLower⟩

/-- JavaScript `s.split(sep)` for a single-character separator. -/
def splitOnChar (sep : Char) : List Char → List (List Char)
  | [] => [[]]
  | c :: cs =>
    let rest := splitOnChar sep cs
    if c == sep then [] :: rest
    else
      match rest with
      | [] => [[c]]
      | r :: rs => (c :: r) :: rs

/-- JavaScript `repoFullName.split('/')`. -/
def splitSlash (s : String) : List String :=
  (splitOnChar '/' s.data).map (fun cs => ⟨cs⟩)

/-- The fields of a workflow object read by checks/security-features.ts
(`w.name`, `w.path`). -/
structure Workflow where
  name : String
  path : String
deriving DecidableEq, Repr

/-- Outcomes of the provider calls made by `checkSecurityFeatures`, one field
per sub-query in source order. -/
structure SecurityFeaturesEnv where
  repoGet : Except ApiError Unit
  securityMd : Except ApiError Unit
  vulnerabilityAlerts : Except ApiError Unit
  dependabotConfig : Except ApiError Unit
  listRepoWorkflows : Except ApiError (List Workflow)
  secretScanningAlerts : Except ApiError Unit
deriving Repr

/-- Finding pushed at security-features.ts lines 23-32. -/
def sfNoSecurityPolicy : SecurityFinding :=
  { id := "sf-no-security-policy"
    category := .securityFeatures
    severity := .medium
    title := "No security policy"
    description := "Repository lacks a SECURITY.md file for vulnerability reporting."
    recommendation := "Create a SECURITY.md file with instructions for reporting security vulnerabilities."
    documentationUrl := some "https://docs.github.com/en/code-security/getting-started/adding-a-security-policy-to-your-repository"
    soc2Control := some "CC7.4" }

/-- Finding pushed at security-features.ts lines 44-53. -/
def sfNoDependabotAlerts : SecurityFinding :=
  { id := "sf-no-dependabot-alerts"
    category := .securityFeatures
    severity := .high
    title := "Dependabot alerts disabled"
    description := "Dependabot vulnerability alerts are not enabled."
    recommendation := "Enable Dependabot alerts to receive notifications about vulnerable dependencies."
    documentationUrl := some "https://docs.github.com/en/code-security/dependabot/dependabot-alerts/about-dependabot-alerts"
    soc2Control := some "CC7.1" }

/-- Finding pushed at security-features.ts lines 65-74. -/
def sfNoDependabotConfig : SecurityFinding :=
  { id := "sf-no-dependabot-config"
    category := .securityFeatures
    severity := .medium
    title := "Dependabot version updates not configured"
    description := "No dependabot.yml configuration file found."
    recommendation := "Create .github/dependabot.yml to enable automatic dependency updates."
    documentationUrl := some "https://docs.github.com/en/code-security/dependabot/dependabot-version-updates/configuring-dependabot-version-updates"
    soc2Control := some "CC7.1" }

/-- Finding pushed at security-features.ts lines 93-102. -/
def sfNoCodeScanning : SecurityFinding :=
  { id := "sf-no-code-scanning"
    category := .securityFeatures
    severity := .high
    title := "Code scanning not configured"
    description := "No CodeQL or code scanning workflow detected."
    recommendation := "Enable GitHub code scanning with CodeQL to detect security vulnerabilities in code."
    documentationUrl := some "https://docs.github.com/en/code-security/code-scanning/introduction-to-code-scanning/about-code-scanning"
    soc2Control := some "CC7.1" }

/-- Finding pushed at security-features.ts lines 116-125. -/
def sfNoSecretScanning : SecurityFinding :=
  { id := "sf-no-secret-scanning"
    category := .securityFeatures
    severity := .high
    title := "Secret scanning not enabled"
    description := "Secret scanning is not enabled for this repository."
    recommendation := "Enable secret scanning to detect accidentally committed secrets."
    documentationUrl := some "https://docs.github.com/en/code-security/secret-scanning/about-secret-scanning"
    soc2Control := some "CC6.7" }

/-- Finding pushed unconditionally at security-features.ts lines 131-140. -/
def sfPushProtectionCheck : SecurityFinding :=
  { id := "sf-push-protection-check"
    category := .securityFeatures
    severity := .info
    title := "Verify push protection is enabled"
    description := "Secret scanning push protection blocks commits containing secrets."
    recommendation := "Enable push protection in Settings → Code security to block secrets before they are committed."
    documentationUrl := some "https://docs.github.com/en/code-security/secret-scanning/push-protection-for-repositories-and-organizations"
    soc2Control := some "CC6.7" }

/-- checks/security-features.ts `checkSecurityFeatures`.  The outer
try/catch wraps everything, but every inner sub-query has its own catch, so
only the initial `octokit.repos.get` can reach the outer catch, which
rethrows.  Inner catches: a failing SECURITY.md or dependabot.yml read
always emits the corresponding finding; the vulnerability-alert and
secret-scanning probes emit a finding only on status 404 (other errors are
swallowed); a failing workflow listing leaves `hasCodeScanning` false.  The
`sf-push-protection-check` finding is pushed unconditionally at the end. -/
def checkSecurityFeatures (env : SecurityFeaturesEnv) : Except ApiError (List SecurityFinding) :=
  match env.repoGet with
  | .error e => .error e
  | .ok _ =>
      let securityPolicyFindings :=
        match env.securityMd with
        | .ok _ => []
        | .error _ => [sfNoSecurityPolicy]
      let vulnerabilityAlertFindings :=
        match env.vulnerabilityAlerts with
        | .ok _ => []
        | .error e => if e.status = some 404 then [sfNoDependabotAlerts] else []
      let dependabotConfigFindings :=
        match env.dependabotConfig with
        | .ok _ => []
        | .error _ => [sfNoDependabotConfig]
      let hasCodeScanning :=
        match env.listRepoWorkflows with
        | .ok workflows =>
            workflows.any (fun w => includesStr (toLowerStr w.name) "codeql" || includesStr w.path "codeql")
        | .error _ => false
      let codeScanningFindings := if !hasCodeScanning then [sfNoCodeScanning] else []
      let secretScanningFindings :=
        match env.secretScanningAlerts with
        | .ok _ => []
        | .error e => if e.status = some 404 then [sfNoSecretScanning] else []
      .ok (securityPolicyFindings ++ vulnerabilityAlertFindings ++ dependabotConfigFindings ++
        codeScanningFindings ++ secretScanningFindings ++ [sfPushProtectionCheck])

/-- `security_vulnerability` sub-object of a Dependabot alert. -/
structure SecVuln where
  severity : String
deriving DecidableEq, Repr

/-- A Dependabot alert as read by `checkDependencyAlerts`
(`a.security_vulnerability?.severity`). -/
structure DependabotAlert where
  security_vulnerability : Option SecVuln
deriving DecidableEq, Repr

/-- Finding pushed at security-features.ts lines 170-181; `n` is the number
of open critical alerts. -/
def depCriticalVulns (n : Nat) : SecurityFinding :=
  { id := "dep-critical-vulns"
    category := .dependencies
    severity := .critical
    title := toString n ++ " critical vulnerability alert(s)"
    description := "Repository has " ++ toString n ++ " unresolved critical Dependabot alerts."
    recommendation := "Review and remediate critical Dependabot alerts immediately."
    documentationUrl := some "https://docs.github.com/en/code-security/dependabot/dependabot-alerts/viewing-and-updating-dependabot-alerts"
    soc2Control := some "CC7.1"
    currentValue := some (.num n)
    expectedValue := some (.num 0) }

/-- Finding pushed at security-features.ts lines 185-196; `n` is the number
of open high-severity alerts. -/
def depHighVulns (n : Nat) : SecurityFinding :=
  { id := "dep-high-vulns"
    category := .dependencies
    severity := .high
    title := toString n ++ " high severity vulnerability alert(s)"
    description := "Repository has " ++ toString n ++ " unresolved high severity Dependabot alerts."
    recommendation := "Review and remediate high severity Dependabot alerts."
    documentationUrl := some "https://docs.github.com/en/code-security/dependabot/dependabot-alerts/viewing-and-updating-dependabot-alerts"
    soc2Control := some "CC7.1"
    currentValue := some (.num n)
    expectedValue := some (.num 0) }

/-- checks/security-features.ts `checkDependencyAlerts` (lines 150-207):
`resp` is the outcome of `octokit.dependabot.listAlertsForRepo`.  The catch
block (lines 199-204) logs non-404/403 errors to the console but never
rethrows any error, so every provider error results in a normal return of
the findings accumulated so far — which is the empty list, because the
listing is the first statement of the try block. -/
def checkDependencyAlerts (resp : Except ApiError (List DependabotAlert)) :
    Except ApiError (List SecurityFinding) :=
  match resp with
  | .ok alerts =>
      let criticalAlerts :=
        alerts.filter (fun a => a.security_vulnerability.map SecVuln.severity == some "critical")
      let highAlerts :=
        alerts.filter (fun a => a.security_vulnerability.map SecVuln.severity == some "high")
      .ok ((if criticalAlerts.length > 0 then [depCriticalVulns criticalAlerts.length] else []) ++
        (if highAlerts.length > 0 then [depHighVulns highAlerts.length] else []))
  | .error _ => .ok []

/-! ## checks/access-control.ts -/

/-- Repository visibility (`'public' | 'private' | 'internal'`). -/
inductive Visibility where
  | publicRepo
  | privateRepo
  | internalRepo
deriving DecidableEq, Repr

/-- The fields of the `octokit.repos.get` response read anywhere in the
core (scanner.ts, access-control.ts, repository-settings.ts). -/
structure RepoData where
  full_name : String
  visibility : Visibility
  default_branch : String
  html_url : String
  has_wiki : Bool
  has_issues : Bool
  allow_forking : Bool
  allow_merge_commit : Bool
  allow_squash_merge : Bool
  allow_rebase_merge : Bool
  delete_branch_on_merge : Bool
deriving DecidableEq, Repr

/-- `c.permissions` sub-object of a collaborator. -/
structure Permissions where
  admin : Bool
  push : Bool
deriving DecidableEq, Repr

/-- A collaborator as read by access-control.ts (`c.permissions?.admin`,
`c.permissions?.push`). -/
structure Collaborator where
  permissions : Option Permissions
deriving DecidableEq, Repr

/-- A deploy key as read by access-control.ts: `k.read_only` and
`k.created_at` (modelled as an integer timestamp, compared against the
one-year-ago cutoff). -/
structure DeployKey where
  read_only : Bool
  created_at : Int
deriving DecidableEq, Repr

/-- `w.config` of a webhook (`url` and `secret` are checked for JavaScript
truthiness, so they are optional and the empty string counts as absent). -/
structure WebhookConfig where
  url : Option String
  secret : Option String
deriving DecidableEq, Repr

/-- A webhook as read by access-control.ts. -/
structure Webhook where
  config : WebhookConfig
deriving DecidableEq, Repr

/-- Truthiness of an optional string (JavaScript: `undefined`, `null` and
`""` are falsy). -/
def truthyStr (s : Option String) : Bool :=
  match s with
  | some v => v != ""
  | none => false

/-- Outcomes of the provider calls made by `checkAccessControl`, plus the
`oneYearAgo` cutoff that the source computes from the current date
(access-control.ts line 32). -/
structure AccessControlEnv where
  repoGet : Except ApiError RepoData
  listCollaborators : Except ApiError (List Collaborator)
  listDeployKeys : Except ApiError (List DeployKey)
  listWebhooks : Except ApiError (List Webhook)
  oneYearAgo : Int
deriving Repr

/-- Finding pushed at access-control.ts line 11. -/
def acPublicRepo : SecurityFinding :=
  { id := "ac-public-repo"
    category := .accessControl
    severity := .info
    title := "Repository is public"
    description := "This repository is publicly accessible. Ensure no sensitive data is exposed."
    recommendation := "Review repository contents for sensitive information. Consider making private if needed."
    soc2Control := some "CC6.1" }

/-- Finding pushed at access-control.ts line 18; `n` is the admin count. -/
def acTooManyAdmins (n : Nat) : SecurityFinding :=
  { id := "ac-too-many-admins"
    category := .accessControl
    severity := .medium
    title := "High number of administrators"
    description := "Repository has " ++ toString n ++ " users with admin access."
    recommendation := "Review admin access and apply principle of least privilege."
    soc2Control := some "CC6.1"
    currentValue := some (.num n)
    expectedValue := some (.str "≤5") }

/-- Finding pushed at access-control.ts line 22; `n` is the outside
collaborator count. -/
def acOutsideCollaborators (n : Nat) : SecurityFinding :=
  { id := "ac-outside-collaborators"
    category := .accessControl
    severity := .info
    title := "Outside collaborators with write access"
    description := toString n ++ " collaborator(s) have write access."
    recommendation := "Periodically review outside collaborator access."
    soc2Control := some "CC6.2"
    currentValue := some (.num n) }

/-- Finding pushed at access-control.ts line 30; `n` is the write-key
count. -/
def acWriteDeployKeys (n : Nat) : SecurityFinding :=
  { id := "ac-write-deploy-keys"
    category := .accessControl
    severity := .medium
    title := "Deploy keys with write access"
    description := toString n ++ " deploy key(s) have write access to the repository."
    recommendation := "Review deploy keys and use read-only keys where possible."
    soc2Control := some "CC6.1"
    currentValue := some (.num n) }

/-- Finding pushed at access-control.ts line 35; `n` is the old-key count. -/
def acOldDeployKeys (n : Nat) : SecurityFinding :=
  { id := "ac-old-deploy-keys"
    category := .accessControl
    severity := .low
    title := "Old deploy keys detected"
    description := toString n ++ " deploy key(s) are over 1 year old."
    recommendation := "Rotate deploy keys periodically. Remove unused keys."
    soc2Control := some "CC6.1"
    currentValue := some (.num n) }

/-- Finding pushed at access-control.ts line 43; `n` is the insecure-webhook
count. -/
def acInsecureWebhooks (n : Nat) : SecurityFinding :=
  { id := "ac-insecure-webhooks"
    category := .accessControl
    severity := .high
    title := "Insecure webhook URLs"
    description := toString n ++ " webhook(s) use non-HTTPS URLs."
    recommendation := "Update webhooks to use HTTPS URLs only."
    soc2Control := some "CC6.7"
    currentValue := some (.num n)
    expectedValue := some (.num 0) }

/-- Finding pushed at access-control.ts line 47; `n` is the count of
webhooks without a secret. -/
def acWebhooksNoSecret (n : Nat) : SecurityFinding :=
  { id := "ac-webhooks-no-secret"
    category := .accessControl
    severity := .medium
    title := "Webhooks without secret validation"
    description := toString n ++ " webhook(s) do not have a secret configured."
    recommendation := "Configure webhook secrets to validate incoming payloads."
    soc2Control := some "CC6.7"
    currentValue := some (.num n)
    expectedValue := some (.num 0) }

/-- checks/access-control.ts `checkAccessControl`.  Only the initial
`octokit.repos.get` reaches the outer catch (which rethrows); the
collaborator, deploy-key and webhook listings each sit in an inner
`try { ... } catch { /* may not have permission */ }` that swallows every
error. -/
def checkAccessControl (env : AccessControlEnv) : Except ApiError (List SecurityFinding) :=
  match env.repoGet with
  | .error e => .error e
  | .ok repoData =>
      let publicFindings := if repoData.visibility = .publicRepo then [acPublicRepo] else []
      let collaboratorFindings :=
        match env.listCollaborators with
        | .error _ => []
        | .ok collaborators =>
            let admins := collaborators.filter
              (fun c => (c.permissions.map Permissions.admin).getD false)
            let outsideCollaborators := collaborators.filter
              (fun c => (c.permissions.map Permissions.push).getD false &&
                !((c.permissions.map Permissions.admin).getD false))
            (if admins.length > 5 then [acTooManyAdmins admins.length] else []) ++
            (if outsideCollaborators.length > 0 then
              [acOutsideCollaborators outsideCollaborators.length] else [])
      let deployKeyFindings :=
        match env.listDeployKeys with
        | .error _ => []
        | .ok deployKeys =>
            let writeKeys := deployKeys.filter (fun k => !k.read_only)
            let oldKeys := deployKeys.filter (fun k => k.created_at < env.oneYearAgo)
            (if writeKeys.length > 0 then [acWriteDeployKeys writeKeys.length] else []) ++
            (if oldKeys.length > 0 then [acOldDeployKeys oldKeys.length] else [])
      let webhookFindings :=
        match env.listWebhooks with
        | .error _ => []
        | .ok webhooks =>
            let insecureWebhooks := webhooks.filter
              (fun w => truthyStr w.config.url &&
                !(startsWithStr ((w.config.url).getD "") "https://"))
            let webhooksWithoutSecret := webhooks.filter (fun w => !truthyStr w.config.secret)
            (if insecureWebhooks.length > 0 then [acInsecureWebhooks insecureWebhooks.length] else []) ++
            (if webhooksWithoutSecret.length > 0 then
              [acWebhooksNoSecret webhooksWithoutSecret.length] else [])
      .ok (publicFindings ++ collaboratorFindings ++ deployKeyFindings ++ webhookFindings)

/-! ## checks/repository-settings.ts -/

/-- The fields of `octokit.actions.getGithubActionsPermissionsRepository`
read by repository-settings.ts. -/
structure ActionsPermissions where
  enabled : Bool
  allowed_actions : Option String
deriving DecidableEq, Repr

/-- The fields of
`octokit.actions.getGithubActionsDefaultWorkflowPermissionsRepository` read
by repository-settings.ts. -/
structure WorkflowSettings where
  default_workflow_permissions : String
  can_approve_pull_request_reviews : Bool
deriving DecidableEq, Repr

/-- A deployment environment as read by repository-settings.ts
(`env.protection_rules` may be absent or empty; only its length is used,
alongside the name). -/
structure EnvironmentInfo where
  name : String
  protection_rules : Option (List Unit)
deriving DecidableEq, Repr

/-- `octokit.repos.getAllEnvironments` response
(`environments.environments` may be absent). -/
structure EnvironmentsResponse where
  environments : Option (List EnvironmentInfo)
deriving DecidableEq, Repr

/-- Outcomes of the provider calls made by `checkRepositorySettings`, one
field per sub-query in source order (the three CODEOWNERS probes in their
loop order). -/
structure RepoSettingsEnv where
  repoGet : Except ApiError RepoData
  readme : Except ApiError Unit
  license : Except ApiError Unit
  codeownersGithub : Except ApiError Unit
  codeownersRoot : Except ApiError Unit
  codeownersDocs : Except ApiError Unit
  actionsPermissions : Except ApiError ActionsPermissions
  gitignore : Except ApiError Unit
  workflowSettings : Except ApiError WorkflowSettings
  environments : Except ApiError EnvironmentsResponse
deriving Repr

/-- Finding pushed at repository-settings.ts lines 16-24. -/
def rsWikiEnabled : SecurityFinding :=
  { id := "rs-wiki-enabled"
    category := .repositorySettings
    severity := .info
    title := "Wiki enabled on public repository"
    description := "Wiki is enabled and publicly accessible."
    recommendation := "Review wiki content for sensitive information or disable if not needed."
    soc2Control := some "CC6.1" }

/-- Finding pushed at repository-settings.ts lines 29-37. -/
def rsIssuesDisabled : SecurityFinding :=
  { id := "rs-issues-disabled"
    category := .repositorySettings
    severity := .low
    title := "Issues disabled"
    description := "GitHub Issues are disabled, which may limit security vulnerability reporting."
    recommendation := "Consider enabling Issues or ensure SECURITY.md has alternative reporting instructions."
    soc2Control := some "CC7.4" }

/-- Finding pushed at repository-settings.ts lines 42-50. -/
def rsLegacyBranchName : SecurityFinding :=
  { id := "rs-legacy-branch-name"
    category := .repositorySettings
    severity := .info
    title := "Legacy default branch name"
    description := "Repository uses \"master\" as default branch. Consider renaming to \"main\"."
    recommendation := "Rename default branch to \"main\" for consistency with GitHub standards."
    documentationUrl := some "https://docs.github.com/en/repositories/configuring-branches-and-merges-in-your-repository/managing-branches-in-your-repository/renaming-a-branch" }

/-- Finding pushed at repository-settings.ts lines 57-64. -/
def rsNoReadme : SecurityFinding :=
  { id := "rs-no-readme"
    category := .repositorySettings
    severity := .low
    title := "No README file"
    description := "Repository lacks a README file."
    recommendation := "Add a README.md with project documentation." }

/-- Finding pushed at repository-settings.ts lines 71-79. -/
def rsNoLicense : SecurityFinding :=
  { id := "rs-no-license"
    category := .repositorySettings
    severity := .low
    title := "No license file"
    description := "Repository lacks a LICENSE file."
    recommendation := "Add a LICENSE file to clarify usage terms."
    documentationUrl := some "https://docs.github.com/en/repositories/managing-your-repositorys-settings-and-features/customizing-your-repository/licensing-a-repository" }

/-- Finding pushed at repository-settings.ts lines 97-106. -/
def rsNoCodeowners : SecurityFinding :=
  { id := "rs-no-codeowners"
    category := .repositorySettings
    severity := .medium
    title := "No CODEOWNERS file"
    description := "Repository lacks a CODEOWNERS file for automatic review assignment."
    recommendation := "Create a CODEOWNERS file to ensure proper code review coverage."
    documentationUrl := some "https://docs.github.com/en/repositories/managing-your-repositorys-settings-and-features/customizing-your-repository/about-code-owners"
    soc2Control := some "CC6.1" }

/-- Finding pushed at repository-settings.ts lines 117-126. -/
def rsActionsAllAllowed : SecurityFinding :=
  { id := "rs-actions-all-allowed"
    category := .repositorySettings
    severity := .medium
    title := "All GitHub Actions allowed"
    description := "Repository allows all GitHub Actions without restrictions."
    recommendation := "Restrict Actions to verified creators or specific allowed actions."
    documentationUrl := some "https://docs.github.com/en/repositories/managing-your-repositorys-settings-and-features/enabling-features-for-your-repository/managing-github-actions-settings-for-a-repository"
    soc2Control := some "CC6.1" }

/-- Finding pushed at repository-settings.ts lines 136-145. -/
def rsNoGitignore : SecurityFinding :=
  { id := "rs-no-gitignore"
    category := .repositorySettings
    severity := .low
    title := "No .gitignore file"
    description := "Repository lacks a .gitignore file, risking accidental commits of sensitive files."
    recommendation := "Add a .gitignore file appropriate for your project type."
    documentationUrl := some "https://docs.github.com/en/get-started/getting-started-with-git/ignoring-files"
    soc2Control := some "CC6.7" }

/-- Finding pushed at repository-settings.ts lines 156-165. -/
def rsTokenWritePermissions : SecurityFinding :=
  { id := "rs-token-write-permissions"
    category := .repositorySettings
    severity := .high
    title := "GITHUB_TOKEN has write permissions by default"
    description := "Workflows have write permissions by default, increasing attack surface."
    recommendation := "Set default GITHUB_TOKEN permissions to \"read\" and grant write permissions explicitly per workflow."
    documentationUrl := some "https://docs.github.com/en/actions/security-guides/automatic-token-authentication#modifying-the-permissions-for-the-github_token"
    soc2Control := some "CC6.1" }

/-- Finding pushed at repository-settings.ts lines 169-178. -/
def rsTokenCanApprovePrs : SecurityFinding :=
  { id := "rs-token-can-approve-prs"
    category := .repositorySettings
    severity := .medium
    title := "Actions can approve pull requests"
    description := "GitHub Actions workflows can approve pull requests, which could bypass review requirements."
    recommendation := "Disable \"Allow GitHub Actions to create and approve pull requests\" unless required."
    documentationUrl := some "https://docs.github.com/en/repositories/managing-your-repositorys-settings-and-features/enabling-features-for-your-repository/managing-github-actions-settings-for-a-repository"
    soc2Control := some "CC6.1" }

/-- Finding pushed at repository-settings.ts lines 187-196. -/
def rsPrivateForkingAllowed : SecurityFinding :=
  { id := "rs-private-forking-allowed"
    category := .repositorySettings
    severity := .medium
    title := "Forking allowed for private repository"
    description := "Private repository allows forking, which could lead to code duplication outside org control."
    recommendation := "Disable forking for private repositories unless explicitly needed."
    documentationUrl := some "https://docs.github.com/en/repositories/managing-your-repositorys-settings-and-features/managing-repository-settings/managing-the-forking-policy-for-your-repository"
    soc2Control := some "CC6.1" }

/-- Finding pushed at repository-settings.ts lines 209-217. -/
def rsAllMergeTypesAllowed : SecurityFinding :=
  { id := "rs-all-merge-types-allowed"
    category := .repositorySettings
    severity := .info
    title := "All merge strategies allowed"
    description := "Repository allows merge commits, squash merging, and rebase merging."
    recommendation := "Consider restricting to squash or rebase merging for cleaner history."
    documentationUrl := some "https://docs.github.com/en/repositories/configuring-branches-and-merges-in-your-repository/configuring-pull-request-merges/about-merge-methods-on-github" }

/-- Finding pushed at repository-settings.ts lines 222-230. -/
def rsNoAutoDeleteBranches : SecurityFinding :=
  { id := "rs-no-auto-delete-branches"
    category := .repositorySettings
    severity := .low
    title := "Auto-delete branches disabled"
    description := "Merged branches are not automatically deleted."
    recommendation := "Enable \"Automatically delete head branches\" to keep repository clean."
    documentationUrl := some "https://docs.github.com/en/repositories/configuring-branches-and-merges-in-your-repository/configuring-pull-request-merges/managing-the-automatic-deletion-of-branches" }

/-- Finding pushed at repository-settings.ts lines 246-256; `names` is the
list of unprotected environment names, joined with a comma in
`currentValue`. -/
def rsUnprotectedEnvironments (n : Nat) (names : List String) : SecurityFinding :=
  { id := "rs-unprotected-environments"
    category := .repositorySettings
    severity := .medium
    title := "Unprotected deployment environments"
    description := toString n ++ " environment(s) have no protection rules configured."
    recommendation := "Add protection rules (required reviewers, wait timers) to deployment environments."
    documentationUrl := some "https://docs.github.com/en/actions/deployment/targeting-different-environments/using-environments-for-deployment"
    soc2Control := some "CC6.1"
    currentValue := some (.str (String.intercalate ", " names)) }

/-- checks/repository-settings.ts `checkRepositorySettings`.  Only the
initial `octokit.repos.get` reaches the outer catch (which rethrows); every
other sub-query is wrapped in an inner catch that swallows its error (the
README / LICENSE / CODEOWNERS / .gitignore probes treat any failure as
file-absent; the Actions-permissions, workflow-settings and environments
probes emit nothing on failure). -/
def checkRepositorySettings (env : RepoSettingsEnv) : Except ApiError (List SecurityFinding) :=
  match env.repoGet with
  | .error e => .error e
  | .ok repoData =>
      let wikiFindings :=
        if repoData.has_wiki && repoData.visibility = .publicRepo then [rsWikiEnabled] else []
      let issuesFindings := if !repoData.has_issues then [rsIssuesDisabled] else []
      let branchNameFindings :=
        if repoData.default_branch = "master" then [rsLegacyBranchName] else []
      let readmeFindings :=
        match env.readme with
        | .ok _ => []
        | .error _ => [rsNoReadme]
      let licenseFindings :=
        match env.license with
        | .ok _ => []
        | .error _ => [rsNoLicense]
      let hasCodeowners :=
        (match env.codeownersGithub with | .ok _ => true | .error _ => false) ||
        (match env.codeownersRoot with | .ok _ => true | .error _ => false) ||
        (match env.codeownersDocs with | .ok _ => true | .error _ => false)
      let codeownersFindings := if !hasCodeowners then [rsNoCodeowners] else []
      let actionsFindings :=
        match env.actionsPermissions with
        | .error _ => []
        | .ok actionsPermissions =>
            if actionsPermissions.enabled && actionsPermissions.allowed_actions == some "all" then
              [rsActionsAllAllowed]
            else []
      let gitignoreFindings :=
        match env.gitignore with
        | .ok _ => []
        | .error _ => [rsNoGitignore]
      let tokenFindings :=
        match env.workflowSettings with
        | .error _ => []
        | .ok workflowSettings =>
            (if workflowSettings.default_workflow_permissions = "write" then
              [rsTokenWritePermissions] else []) ++
            (if workflowSettings.can_approve_pull_request_reviews then
              [rsTokenCanApprovePrs] else [])
      let forkingFindings :=
        if repoData.visibility = .privateRepo then
          if repoData.allow_forking then [rsPrivateForkingAllowed] else []
        else []
      let mergeFindings :=
        if repoData.allow_merge_commit && repoData.allow_squash_merge &&
            repoData.allow_rebase_merge then
          [rsAllMergeTypesAllowed]
        else []
      let deleteBranchFindings :=
        if !repoData.delete_branch_on_merge then [rsNoAutoDeleteBranches] else []
      let environmentFindings :=
        match env.environments with
        | .error _ => []
        | .ok resp =>
            match resp.environments with
            | none => []
            | some envs =>
                if envs.length > 0 then
                  let unprotectedEnvs := envs.filter
                    (fun e => (e.protection_rules.map List.length).getD 0 = 0)
                  if unprotectedEnvs.length > 0 then
                    [rsUnprotectedEnvironments unprotectedEnvs.length
                      (unprotectedEnvs.map EnvironmentInfo.name)]
                  else []
                else []
      .ok (wikiFindings ++ issuesFindings ++ branchNameFindings ++ readmeFindings ++
        licenseFindings ++ codeownersFindings ++ actionsFindings ++ gitignoreFindings ++
        tokenFindings ++ forkingFindings ++ mergeFindings ++ deleteBranchFindings ++
        environmentFindings)

/-! ## scanner.ts -/

/-- `summary` of a RepoScanResult (types.ts lines 38-45). -/
structure Summary where
  critical : Nat
  high : Nat
  medium : Nat
  low : Nat
  info : Nat
  passed : Nat
deriving DecidableEq, Repr

/-- `repository` of a RepoScanResult (types.ts lines 27-34). -/
structure Repository where
  owner : String
  name : String
  fullName : String
  visibility : Visibility
  defaultBranch : String
  url : String
deriving DecidableEq, Repr

/-- RepoScanResult from types.ts (`scannedAt` is a `new Date()` timestamp,
modelled as a `Nat` supplied by the environment). -/
structure RepoScanResult where
  repository : Repository
  scannedAt : Nat
  findings : List SecurityFinding
  score : Int
  summary : Summary
deriving DecidableEq, Repr

/-- ScannerConfig from types.ts (the fields the scanner reads; optional
fields default through `||` / zod defaults in the source). -/
structure ScannerConfig where
  token : String
  severityThreshold : Option Severity := none
  includeArchived : Option Bool := none
  includeForks : Option Bool := none
deriving Repr

/-- Outcomes of every provider call a single `scanRepository` invocation can
make: the identity lookup plus the sub-query environments of the five check
invocations, and the `new Date()` timestamp. -/
structure ScanEnv where
  repoGet : Except ApiError RepoData
  branchProtectionResp : Except ApiError ProtectionData
  securityFeaturesEnv : SecurityFeaturesEnv
  dependencyAlertsResp : Except ApiError (List DependabotAlert)
  accessControlEnv : AccessControlEnv
  repoSettingsEnv : RepoSettingsEnv
  now : Nat
deriving Repr

/-- scanner.ts `GitHubSecurityScanner.scanRepository` (lines 48-89).  The
identity lookup failure propagates; the five checks run under
`Promise.all`, whose rejection (any check's error) propagates and aborts
the scan; their finding lists are concatenated in the listed order, the
severity filter with threshold `config.severityThreshold || 'low'` is
applied via `severityOrder.indexOf`, the per-severity summary is counted
over the filtered findings with `passed: 0`, and the score is computed over
the filtered findings. -/
def scanRepository (config : ScannerConfig) (env : ScanEnv) (owner repo : String) :
    Except ApiError RepoScanResult :=
  match env.repoGet with
  | .error e => .error e
  | .ok repoData =>
    match checkBranchProtection env.branchProtectionResp repoData.default_branch with
    | .error e => .error e
    | .ok branchProtectionFindings =>
      match checkSecurityFeatures env.securityFeaturesEnv with
      | .error e => .error e
      | .ok securityFeatureFindings =>
        match checkDependencyAlerts env.dependencyAlertsResp with
        | .error e => .error e
        | .ok dependencyFindings =>
          match checkAccessControl env.accessControlEnv with
          | .error e => .error e
          | .ok accessControlFindings =>
            match checkRepositorySettings env.repoSettingsEnv with
            | .error e => .error e
            | .ok repoSettingsFindings =>
              let allFindings := branchProtectionFindings ++ securityFeatureFindings ++
                dependencyFindings ++ accessControlFindings ++ repoSettingsFindings
              let thresholdIndex := severityOrder.indexOf (config.severityThreshold.getD .low)
              let filteredFindings :=
                allFindings.filter (fun f => severityOrder.indexOf f.severity ≤ thresholdIndex)
              let summary : Summary :=
                { critical := (filteredFindings.filter (fun f => f.severity == .critical)).length
                  high := (filteredFindings.filter (fun f => f.severity == .high)).length
                  medium := (filteredFindings.filter (fun f => f.severity == .medium)).length
                  low := (filteredFindings.filter (fun f => f.severity == .low)).length
                  info := (filteredFindings.filter (fun f => f.severity == .info)).length
                  passed := 0 }
              .ok
                { repository :=
                    { owner := owner
                      name := repo
                      fullName := repoData.full_name
                      visibility := repoData.visibility
                      defaultBranch := repoData.default_branch
                      url := repoData.html_url }
                  scannedAt := env.now
                  findings := filteredFindings
                  score := calculateScore filteredFindings
                  summary := summary }

/-- `const [owner, repo] = repoFullName.split('/')` — the first part. -/
def ownerOf (repoFullName : String) : String :=
  (splitSlash repoFullName).getD 0 ""

/-- `const [owner, repo] = repoFullName.split('/')` — the second part. -/
def repoOf (repoFullName : String) : String :=
  (splitSlash repoFullName).getD 1 ""

/-- scanner.ts `GitHubSecurityScanner.scanMultipleRepos` (lines 91-103):
iterates the input names sequentially; each name is split on `/`, the
per-repository scan runs inside a try/catch that logs and skips failures,
and only successful results are pushed.  `envOf` supplies the provider
outcomes for each `(owner, repo)` pair. -/
def scanMultipleRepos (config : ScannerConfig) (envOf : String → String → ScanEnv)
    (repos : List String) : List RepoScanResult :=
  repos.foldl
    (fun results repoFullName =>
      let owner := ownerOf repoFullName
      let repo := repoOf repoFullName
      match scanRepository config (envOf owner repo) owner repo with
      | .ok result => results ++ [result]
      | .error _ => results)
    []

/-! ## reports/soc2.ts -/

/-- A Control Catalog entry value (`{ name, description }`). -/
structure ControlInfo where
  name : String
  description : String
deriving DecidableEq, Repr

/-- soc2.ts `SOC2_CONTROLS` (lines 3-10), in object-literal insertion order
(which is the `Object.keys` / `Object.entries` iteration order). -/
def SOC2_CONTROLS : List (String × ControlInfo) :=
  [("CC6.1", { name := "Logical and Physical Access Controls"
               description := "The entity implements logical access security software, infrastructure, and architectures over protected information assets." }),
   ("CC6.2", { name := "User Access Management"
               description := "Prior to issuing system credentials and granting system access, the entity registers and authorizes new internal and external users." }),
   ("CC6.7", { name := "Data Transmission Protection"
               description := "The entity restricts the transmission, movement, and removal of information to authorized internal and external users." }),
   ("CC7.1", { name := "Vulnerability Management"
               description := "To meet its objectives, the entity uses detection and monitoring procedures to identify changes to configurations that result in vulnerabilities." }),
   ("CC7.4", { name := "Security Incident Response"
               description := "The entity responds to identified security incidents by executing a defined incident response program." }),
   ("CC8.1", { name := "Change Management"
               description := "The entity authorizes, designs, develops or acquires, configures, documents, tests, approves, and implements changes to infrastructure, data, software, and procedures." })]

/-- Status of a SOC2Control (types.ts line 87). -/
inductive ControlStatus where
  | compliant
  | partialCompliance
  | nonCompliant
deriving DecidableEq, Repr

/-- SOC2Control from types.ts (lines 83-90). -/
structure SOC2Control where
  id : String
  name : String
  description : String
  status : ControlStatus
  findings : List SecurityFinding
  evidence : List String
deriving DecidableEq, Repr

/-- SOC2Report from types.ts (lines 76-81); `generatedAt` is a `new Date()`
timestamp supplied by the caller. -/
structure SOC2Report where
  generatedAt : Nat
  repositories : List String
  controls : List SOC2Control
  overallCompliance : Nat
deriving DecidableEq, Repr

/-- The copy-with-override at soc2.ts line 24:
`{ ...finding, description: ` + "`[${result.repository.fullName}] ${finding.description}`" + ` }`. -/
def poolFinding (fullName : String) (finding : SecurityFinding) : SecurityFinding :=
  { finding with description := "[" ++ fullName ++ "] " ++ finding.description }

/-- The `controlFindings` dictionary of soc2.ts (lines 13-26), read at one
catalog key: all findings across the scan results whose `soc2Control` names
that key, each pooled as a prefixed copy, in iteration order.  (The source
builds the dictionary by pushing while iterating results and findings; read
per key, that is exactly this flatMap.) -/
def controlFindingsFor (scanResults : List RepoScanResult) (controlId : String) :
    List SecurityFinding :=
  scanResults.flatMap (fun result =>
    result.findings.filterMap (fun finding =>
      match finding.soc2Control with
      | some cid => if cid = controlId then some (poolFinding result.repository.fullName finding) else none
      | none => none))

/-- The `controlEvidence` dictionary of soc2.ts (lines 28-34), read at one
catalog key: for each repository, the fixed five absence-of-finding rules
fire in source order (CC6.1 branch protection, CC7.1 dependabot alerts,
CC7.1 code scanning, CC7.4 security policy, CC6.7 secret scanning). -/
def controlEvidenceFor (scanResults : List RepoScanResult) (controlId : String) :
    List String :=
  scanResults.flatMap (fun result =>
    let repoName := result.repository.fullName
    (if controlId = "CC6.1" && !(result.findings.any (fun f => f.id == "bp-not-enabled")) then
      [repoName ++ ": Branch protection is enabled on default branch."] else []) ++
    (if controlId = "CC7.1" && !(result.findings.any (fun f => f.id == "sf-no-dependabot-alerts")) then
      [repoName ++ ": Dependabot alerts are enabled for vulnerability detection."] else []) ++
    (if controlId = "CC7.1" && !(result.findings.any (fun f => f.id == "sf-no-code-scanning")) then
      [repoName ++ ": Code scanning is configured for security analysis."] else []) ++
    (if controlId = "CC7.4" && !(result.findings.any (fun f => f.id == "sf-no-security-policy")) then
      [repoName ++ ": Security policy (SECURITY.md) is in place."] else []) ++
    (if controlId = "CC6.7" && !(result.findings.any (fun f => f.id == "sf-no-secret-scanning")) then
      [repoName ++ ": Secret scanning is enabled to prevent credential leaks."] else []))

/-- reports/soc2.ts `generateSOC2Report` (lines 12-52).  Controls are built
over `Object.entries(SOC2_CONTROLS)`; per control, `criticalOrHigh` filters
the pooled findings and the status is the if/else chain of lines 40-43.
`overallCompliance` is `Math.round(((compliant + 0.5 * partial) / total) * 100)`,
computed here exactly over the integers as
`floor((200 * compliant + 100 * partial + total) / (2 * total))` (the operands
never land on a float-rounding boundary: with six controls every value is a
multiple of one third of a percent, never an exact half). -/
def generateSOC2Report (now : Nat) (scanResults : List RepoScanResult) : SOC2Report :=
  let controls : List SOC2Control := SOC2_CONTROLS.map (fun entry =>
    let findings := controlFindingsFor scanResults entry.1
    let evidence := controlEvidenceFor scanResults entry.1
    let criticalOrHigh := findings.filter (fun f => f.severity == .critical || f.severity == .high)
    let status : ControlStatus :=
      if criticalOrHigh.length = 0 && findings.length ≤ 2 then .compliant
      else if criticalOrHigh.length = 0 then .partialCompliance
      else .nonCompliant
    { id := entry.1
      name := entry.2.name
      description := entry.2.description
      status := status
      findings := findings
      evidence := evidence })
  let compliantCount := (controls.filter (fun c => c.status == .compliant)).length
  let partialCount := (controls.filter (fun c => c.status == .partialCompliance)).length
  { generatedAt := now
    repositories := scanResults.map (fun r => r.repository.fullName)
    controls := controls
    overallCompliance :=
      (200 * compliantCount + 100 * partialCount + controls.length) / (2 * controls.length) }

/-! ## fixer.ts -/

/-- FixResult from fixer.ts (lines 3-8). -/
structure FixResult where
  success : Bool
  findingId : String
  message : String
  error : Option String := none
deriving DecidableEq, Repr

/-- The provider calls the fixer can make, one constructor per private
action method of `SecurityFixer` (fixer.ts lines 53-129), carrying the
request parameters that vary. -/
inductive FixCall where
  | updateBranchProtectionBaseline (owner repo branch : String) (enforceAdmins : Option Bool)
      (approvingCount : Nat)
  | setAdminBranchProtection (owner repo branch : String)
  | enableVulnerabilityAlerts (owner repo : String)
  | setDefaultWorkflowPermissionsRead (owner repo : String)
  | disableActionsApproval (owner repo : String)
  | updateDeleteBranchOnMerge (owner repo : String)
  | updateAllowForking (owner repo : String)
deriving DecidableEq, Repr

/-- fixer.ts `SecurityFixer.fixFinding` (lines 17-51), instrumented with the
list of provider calls performed.  `provider` gives the outcome of each
call.  The switch dispatches on the finding id; the default branch returns
the `UNSUPPORTED_FIX` result without any provider call; the surrounding
try/catch converts a provider error into
`{ success: false, findingId, message: "Failed: " + error.message, error: error.message }`,
so the method never throws.  Each mapped branch makes exactly one provider
call and on success returns the action's success result. -/
def fixFinding (provider : FixCall → Except ApiError Unit)
    (owner repo findingId : String) (branch : Option String) :
    FixResult × List FixCall :=
  let branchName := branch.getD "main"
  let runCall (call : FixCall) (okResult : FixResult) : FixResult × List FixCall :=
    match provider call with
    | .ok _ => (okResult, [call])
    | .error e =>
        ({ success := false, findingId := findingId, message := "Failed: " ++ e.message,
           error := some e.message }, [call])
  if findingId = "bp-not-enabled" then
    runCall (.updateBranchProtectionBaseline owner repo branchName (some true) 1)
      { success := true, findingId := "bp-not-enabled", message := "Branch protection enabled" }
  else if findingId = "bp-no-pr-reviews" then
    runCall (.updateBranchProtectionBaseline owner repo branchName none 1)
      { success := true, findingId := "bp-no-pr-reviews", message := "PR reviews now required" }
  else if findingId = "bp-admin-bypass" then
    runCall (.setAdminBranchProtection owner repo branchName)
      { success := true, findingId := "bp-admin-bypass", message := "Admin enforcement enabled" }
  else if findingId = "bp-stale-reviews" then
    runCall (.updateBranchProtectionBaseline owner repo branchName none 1)
      { success := true, findingId := "bp-stale-reviews", message := "Stale review dismissal enabled" }
  else if findingId = "bp-low-review-count" then
    runCall (.updateBranchProtectionBaseline owner repo branchName none 2)
      { success := true, findingId := "bp-low-review-count", message := "Required reviewers set to 2" }
  else if findingId = "sf-no-dependabot-alerts" then
    runCall (.enableVulnerabilityAlerts owner repo)
      { success := true, findingId := "sf-no-dependabot-alerts", message := "Dependabot alerts enabled" }
  else if findingId = "rs-token-write-permissions" then
    runCall (.setDefaultWorkflowPermissionsRead owner repo)
      { success := true, findingId := "rs-token-write-permissions", message := "GITHUB_TOKEN set to read-only" }
  else if findingId = "rs-token-can-approve-prs" then
    runCall (.disableActionsApproval owner repo)
      { success := true, findingId := "rs-token-can-approve-prs", message := "Actions PR approval disabled" }
  else if findingId = "rs-no-auto-delete-branches" then
    runCall (.updateDeleteBranchOnMerge owner repo)
      { success := true, findingId := "rs-no-auto-delete-branches", message := "Auto-delete branches enabled" }
  else if findingId = "rs-private-forking-allowed" then
    runCall (.updateAllowForking owner repo)
      { success := true, findingId := "rs-private-forking-allowed", message := "Forking disabled" }
  else
    ({ success := false, findingId := findingId,
       message := "No automatic fix available for this finding",
       error := some "UNSUPPORTED_FIX" }, [])

/-- The ten finding identifiers of the fixer's switch (fixer.ts lines
19-39), in case order. -/
def supportedFixIds : List String :=
  ["bp-not-enabled", "bp-no-pr-reviews", "bp-admin-bypass", "bp-stale-reviews",
   "bp-low-review-count", "sf-no-dependabot-alerts", "rs-token-write-permissions",
   "rs-token-can-approve-prs", "rs-no-auto-delete-branches", "rs-private-forking-allowed"]

/-! ## Theorems -/

/-- Claim C4: when the branch-protection lookup on the named branch fails
with the not-found signal (status 404), the module returns exactly one
finding — id `bp-not-enabled`, category `branch-protection`, severity
`critical` — and no other branch-protection predicate produces a finding
(the returned list is that singleton). -/
theorem checkBranchProtection_notFound (e : ApiError) (branch : String)
    (h : e.status = some 404) :
    checkBranchProtection (.error e) branch = .ok [bpNotEnabled branch] ∧
    (bpNotEnabled branch).id = "bp-not-enabled" ∧
    (bpNotEnabled branch).category = .branchProtection ∧
    (bpNotEnabled branch).severity = .critical := by
  refine ⟨?_, rfl, rfl, rfl⟩
  simp [checkBranchProtection, h]

theorem checkBranchProtection_notFound_witness :
    checkBranchProtection (.error { status := some 404, message := "Branch not protected" }) "main"
      = .ok [bpNotEnabled "main"] ∧
    (bpNotEnabled "main").id = "bp-not-enabled" ∧
    (bpNotEnabled "main").category = .branchProtection ∧
    (bpNotEnabled "main").severity = .critical :=
  checkBranchProtection_notFound { status := some 404, message := "Branch not protected" } "main" rfl

/-- Claim C8: when the branch-protection lookup fails with the forbidden /
plan-restricted signal (status 403, as opposed to 404), the module reports
exactly one informational finding — id `bp-not-available`, severity `info`,
distinct from the critical `bp-not-enabled` finding — and does not
propagate the error. -/
theorem checkBranchProtection_forbidden (e : ApiError) (branch : String)
    (h : e.status = some 403) :
    checkBranchProtection (.error e) branch = .ok [bpNotAvailable] ∧
    bpNotAvailable.id = "bp-not-available" ∧
    bpNotAvailable.category = .branchProtection ∧
    bpNotAvailable.severity = .info ∧
    bpNotAvailable.id ≠ (bpNotEnabled branch).id ∧
    bpNotAvailable.severity ≠ (bpNotEnabled branch).severity := by
  refine ⟨?_, rfl, rfl, rfl, ?_, ?_⟩
  · simp [checkBranchProtection, h]
  · show ("bp-not-available" : String) ≠ "bp-not-enabled"
    decide
  · show Severity.info ≠ Severity.critical
    decide

theorem checkBranchProtection_forbidden_witness :
    checkBranchProtection (.error { status := some 403, message := "Upgrade required" }) "main"
      = .ok [bpNotAvailable] ∧
    bpNotAvailable.id = "bp-not-available" ∧
    bpNotAvailable.category = .branchProtection ∧
    bpNotAvailable.severity = .info ∧
    bpNotAvailable.id ≠ (bpNotEnabled "main").id ∧
    bpNotAvailable.severity ≠ (bpNotEnabled "main").severity :=
  checkBranchProtection_forbidden { status := some 403, message := "Upgrade required" } "main" rfl

/-- Claim C1, counterexample: a genuine provider error (HTTP 500, neither
the not-found nor the plan-restricted signal) during the dependency-alerts
sub-check does NOT propagate to the caller — `checkDependencyAlerts`
returns a normal (empty) finding list, because its catch block
(security-features.ts lines 199-204) only logs non-404/403 errors and never
rethrows. -/
theorem checkDependencyAlerts_swallows_error :
    checkDependencyAlerts (.error { status := some 500, message := "Internal Server Error" })
      = .ok [] := rfl

/-- Claim C1 as amended: a genuine provider error (status neither 404 nor
403) propagates as a module-level failure from the branch-protection
lookup, and from the initial repository lookup of the security-features,
access-control and repository-settings modules — and such a module failure
aborts `scanRepository` — but the dependency-alerts sub-check never
propagates any provider error: it catches every error and returns the
findings accumulated so far (the empty list). -/
theorem genuine_error_propagation (e : ApiError)
    (h404 : e.status ≠ some 404) (h403 : e.status ≠ some 403) :
    (∀ branch, checkBranchProtection (.error e) branch = .error e) ∧
    (∀ env : SecurityFeaturesEnv, env.repoGet = .error e → checkSecurityFeatures env = .error e) ∧
    (∀ env : AccessControlEnv, env.repoGet = .error e → checkAccessControl env = .error e) ∧
    (∀ env : RepoSettingsEnv, env.repoGet = .error e → checkRepositorySettings env = .error e) ∧
    (∀ (config : ScannerConfig) (env : ScanEnv) (owner repo : String) (repoData : RepoData),
      env.repoGet = .ok repoData → env.branchProtectionResp = .error e →
      scanRepository config env owner repo = .error e) ∧
    (∀ resp : Except ApiError (List DependabotAlert),
      ∃ l, checkDependencyAlerts resp = .ok l) := by
  refine ⟨?_, ?_, ?_, ?_, ?_, ?_⟩
  · intro branch
    simp [checkBranchProtection, h404, h403]
  · intro env henv
    simp [checkSecurityFeatures, henv]
  · intro env henv
    simp [checkAccessControl, henv]
  · intro env henv
    simp [checkRepositorySettings, henv]
  · intro config env owner repo repoData hget hbp
    simp [scanRepository, hget, hbp, checkBranchProtection, h404, h403]
  · intro resp
    cases resp with
    | ok alerts => exact ⟨_, rfl⟩
    | error err => exact ⟨[], rfl⟩

theorem genuine_error_propagation_witness :
    checkBranchProtection (.error { status := some 500, message := "boom" }) "main"
      = .error { status := some 500, message := "boom" } :=
  (genuine_error_propagation { status := some 500, message := "boom" }
    (by decide) (by decide)).1 "main"

/-- Claim C10: every successful run of the security-features check (one
whose outer provider call does not fail) emits the `sf-push-protection-check`
finding — category `security-features`, severity `info` — unconditionally,
so the pre-filter finding list is never empty; and the scanner's severity
filter at the default threshold (`severityThreshold` absent, so `low`)
drops that finding, which is why a fully compliant scan can end with zero
retained findings. -/
theorem checkSecurityFeatures_always_push_protection (env : SecurityFeaturesEnv)
    (l : List SecurityFinding) (h : checkSecurityFeatures env = .ok l) :
    sfPushProtectionCheck ∈ l ∧
    sfPushProtectionCheck.id = "sf-push-protection-check" ∧
    sfPushProtectionCheck.category = .securityFeatures ∧
    sfPushProtectionCheck.severity = .info ∧
    l ≠ [] ∧
    [sfPushProtectionCheck].filter
        (fun f => severityOrder.indexOf f.severity ≤
          severityOrder.indexOf ((none : Option Severity).getD .low)) = [] := by
  cases hrg : env.repoGet with
  | error e =>
      rw [checkSecurityFeatures] at h
      rw [hrg] at h
      cases h
  | ok u =>
      rw [checkSecurityFeatures] at h
      rw [hrg] at h
      simp only [Except.ok.injEq] at h
      subst h
      refine ⟨?_, rfl, rfl, rfl, ?_, by decide⟩
      · simp
      · simp

theorem checkSecurityFeatures_always_push_protection_witness :
    sfPushProtectionCheck ∈
      [sfNoSecurityPolicy, sfNoDependabotAlerts, sfNoDependabotConfig, sfNoCodeScanning,
        sfNoSecretScanning, sfPushProtectionCheck] ∧
    sfPushProtectionCheck.id = "sf-push-protection-check" ∧
    sfPushProtectionCheck.category = .securityFeatures ∧
    sfPushProtectionCheck.severity = .info ∧
    ([sfNoSecurityPolicy, sfNoDependabotAlerts, sfNoDependabotConfig, sfNoCodeScanning,
        sfNoSecretScanning, sfPushProtectionCheck] : List SecurityFinding) ≠ [] ∧
    [sfPushProtectionCheck].filter
        (fun f => severityOrder.indexOf f.severity ≤
          severityOrder.indexOf ((none : Option Severity).getD .low)) = [] :=
  checkSecurityFeatures_always_push_protection
    { repoGet := .ok ()
      securityMd := .error { status := some 404 }
      vulnerabilityAlerts := .error { status := some 404 }
      dependabotConfig := .error { status := some 404 }
      listRepoWorkflows := .ok []
      secretScanningAlerts := .error { status := some 404 } }
    _ rfl

/-- Rank of a severity in the total order `critical > high > medium > low >
info` (0 = most severe); stated independently of the scanner's
`indexOf`-based encoding so the filter theorems compare against the order
itself. -/
def sevRank : Severity → Nat
  | .critical => 0
  | .high => 1
  | .medium => 2
  | .low => 3
  | .info => 4

theorem severityOrder_indexOf_eq_sevRank (s : Severity) :
    severityOrder.indexOf s = sevRank s := by
  cases s <;> rfl

/-- Claim C7: the orchestrator's severity filter retains exactly the
findings whose severity lies from `critical` down through the configured
threshold inclusive (rank comparison in the total order); with the default
threshold (`severityThreshold` absent, hence `low`) no retained finding has
severity `info`; and the summary counts each severity over the retained
findings with `passed` always 0. -/
theorem scanRepository_severity_filter
    (config : ScannerConfig) (env : ScanEnv) (owner repo : String)
    (repoData : RepoData) (bp sf dep ac rs : List SecurityFinding) (res : RepoScanResult)
    (hget : env.repoGet = .ok repoData)
    (hbp : checkBranchProtection env.branchProtectionResp repoData.default_branch = .ok bp)
    (hsf : checkSecurityFeatures env.securityFeaturesEnv = .ok sf)
    (hdep : checkDependencyAlerts env.dependencyAlertsResp = .ok dep)
    (hac : checkAccessControl env.accessControlEnv = .ok ac)
    (hrs : checkRepositorySettings env.repoSettingsEnv = .ok rs)
    (hres : scanRepository config env owner repo = .ok res) :
    res.findings = (bp ++ sf ++ dep ++ ac ++ rs).filter
      (fun f => severityOrder.indexOf f.severity ≤
        severityOrder.indexOf (config.severityThreshold.getD .low)) ∧
    (∀ f, f ∈ res.findings ↔
      f ∈ bp ++ sf ++ dep ++ ac ++ rs ∧
        sevRank f.severity ≤ sevRank (config.severityThreshold.getD .low)) ∧
    (config.severityThreshold = none → ∀ f ∈ res.findings, f.severity ≠ .info) ∧
    res.summary.critical = (res.findings.filter (fun f => f.severity == .critical)).length ∧
    res.summary.high = (res.findings.filter (fun f => f.severity == .high)).length ∧
    res.summary.medium = (res.findings.filter (fun f => f.severity == .medium)).length ∧
    res.summary.low = (res.findings.filter (fun f => f.severity == .low)).length ∧
    res.summary.info = (res.findings.filter (fun f => f.severity == .info)).length ∧
    res.summary.passed = 0 := by
  simp only [scanRepository, hget, hbp, hsf, hdep, hac, hrs, Except.ok.injEq] at hres
  subst hres
  refine ⟨rfl, ?_, ?_, rfl, rfl, rfl, rfl, rfl, rfl⟩
  · intro f
    rw [List.mem_filter]
    simp only [severityOrder_indexOf_eq_sevRank, decide_eq_true_eq]
  · intro hnone f hf
    rw [List.mem_filter] at hf
    rcases hf with ⟨-, hle⟩
    rw [hnone] at hle
    simp only [severityOrder_indexOf_eq_sevRank, decide_eq_true_eq] at hle
    intro hinfo
    rw [hinfo] at hle
    simp [sevRank] at hle

/-! Concrete sample environments used by the witnesses: a repository that
passes every predicate, and a repository whose identity lookup throws. -/

def sampleRepoData : RepoData :=
  { full_name := "a/repo1"
    visibility := .privateRepo
    default_branch := "main"
    html_url := "https://github.com/a/repo1"
    has_wiki := false
    has_issues := true
    allow_forking := false
    allow_merge_commit := false
    allow_squash_merge := true
    allow_rebase_merge := false
    delete_branch_on_merge := true }

def sampleProtectionData : ProtectionData :=
  { required_pull_request_reviews :=
      some { dismiss_stale_reviews := true
             require_code_owner_reviews := true
             required_approving_review_count := some 2 }
    enforce_admins := some { enabled := true }
    required_status_checks := some { strict := true, contexts := ["ci"] }
    allow_force_pushes := some { enabled := false }
    allow_deletions := some { enabled := false }
    required_conversation_resolution := some { enabled := true }
    required_signatures := some { enabled := true }
    required_linear_history := some { enabled := true } }

def sampleSecurityFeaturesEnv : SecurityFeaturesEnv :=
  { repoGet := .ok ()
    securityMd := .ok ()
    vulnerabilityAlerts := .ok ()
    dependabotConfig := .ok ()
    listRepoWorkflows := .ok [{ name := "CodeQL", path := ".github/workflows/codeql.yml" }]
    secretScanningAlerts := .ok () }

def sampleAccessControlEnv : AccessControlEnv :=
  { repoGet := .ok sampleRepoData
    listCollaborators := .ok []
    listDeployKeys := .ok []
    listWebhooks := .ok []
    oneYearAgo := 0 }

def sampleRepoSettingsEnv : RepoSettingsEnv :=
  { repoGet := .ok sampleRepoData
    readme := .ok ()
    license := .ok ()
    codeownersGithub := .ok ()
    codeownersRoot := .error { status := some 404 }
    codeownersDocs := .error { status := some 404 }
    actionsPermissions := .ok { enabled := true, allowed_actions := some "selected" }
    gitignore := .ok ()
    workflowSettings := .ok { default_workflow_permissions := "read"
                              can_approve_pull_request_reviews := false }
    environments := .ok { environments := none } }

def sampleScanEnv : ScanEnv :=
  { repoGet := .ok sampleRepoData
    branchProtectionResp := .ok sampleProtectionData
    securityFeaturesEnv := sampleSecurityFeaturesEnv
    dependencyAlertsResp := .ok []
    accessControlEnv := sampleAccessControlEnv
    repoSettingsEnv := sampleRepoSettingsEnv
    now := 0 }

def failingScanEnv : ScanEnv :=
  { repoGet := .error { status := some 500, message := "boom" }
    branchProtectionResp := .error { status := some 500, message := "boom" }
    securityFeaturesEnv :=
      { repoGet := .error { status := some 500, message := "boom" }
        securityMd := .error {}
        vulnerabilityAlerts := .error {}
        dependabotConfig := .error {}
        listRepoWorkflows := .error {}
        secretScanningAlerts := .error {} }
    dependencyAlertsResp := .error { status := some 500, message := "boom" }
    accessControlEnv :=
      { repoGet := .error { status := some 500, message := "boom" }
        listCollaborators := .error {}
        listDeployKeys := .error {}
        listWebhooks := .error {}
        oneYearAgo := 0 }
    repoSettingsEnv :=
      { repoGet := .error { status := some 500, message := "boom" }
        readme := .error {}
        license := .error {}
        codeownersGithub := .error {}
        codeownersRoot := .error {}
        codeownersDocs := .error {}
        actionsPermissions := .error {}
        gitignore := .error {}
        workflowSettings := .error {}
        environments := .error {} }
    now := 0 }

def sampleConfig : ScannerConfig := { token := "token" }

def sampleScanResult : RepoScanResult :=
  { repository :=
      { owner := "a"
        name := "repo1"
        fullName := "a/repo1"
        visibility := .privateRepo
        defaultBranch := "main"
        url := "https://github.com/a/repo1" }
    scannedAt := 0
    findings := []
    score := 100
    summary := { critical := 0, high := 0, medium := 0, low := 0, info := 0, passed := 0 } }

theorem scanRepository_severity_filter_witness :
    sampleScanResult.findings = ([] ++ [sfPushProtectionCheck] ++ [] ++ [] ++ []).filter
      (fun f => severityOrder.indexOf f.severity ≤
        severityOrder.indexOf (sampleConfig.severityThreshold.getD .low)) ∧
    (∀ f, f ∈ sampleScanResult.findings ↔
      f ∈ [] ++ [sfPushProtectionCheck] ++ [] ++ [] ++ [] ∧
        sevRank f.severity ≤ sevRank (sampleConfig.severityThreshold.getD .low)) ∧
    (sampleConfig.severityThreshold = none →
      ∀ f ∈ sampleScanResult.findings, f.severity ≠ .info) ∧
    sampleScanResult.summary.critical
      = (sampleScanResult.findings.filter (fun f => f.severity == .critical)).length ∧
    sampleScanResult.summary.high
      = (sampleScanResult.findings.filter (fun f => f.severity == .high)).length ∧
    sampleScanResult.summary.medium
      = (sampleScanResult.findings.filter (fun f => f.severity == .medium)).length ∧
    sampleScanResult.summary.low
      = (sampleScanResult.findings.filter (fun f => f.severity == .low)).length ∧
    sampleScanResult.summary.info
      = (sampleScanResult.findings.filter (fun f => f.severity == .info)).length ∧
    sampleScanResult.summary.passed = 0 :=
  scanRepository_severity_filter sampleConfig sampleScanEnv "a" "repo1" sampleRepoData
    [] [sfPushProtectionCheck] [] [] [] sampleScanResult
    (by rfl) (by rfl) (by rfl) (by rfl) (by rfl) (by rfl) (by rfl)

theorem scanMultipleRepos_eq_filterMap (config : ScannerConfig)
    (envOf : String → String → ScanEnv) (repos : List String) :
    scanMultipleRepos config envOf repos
      = repos.filterMap (fun repoFullName =>
          (scanRepository config (envOf (ownerOf repoFullName) (repoOf repoFullName))
            (ownerOf repoFullName) (repoOf repoFullName)).toOption) := by
  have main : ∀ (l : List String) (acc : List RepoScanResult),
      l.foldl
        (fun results repoFullName =>
          let owner := ownerOf repoFullName
          let repo := repoOf repoFullName
          match scanRepository config (envOf owner repo) owner repo with
          | .ok result => results ++ [result]
          | .error _ => results)
        acc
      = acc ++ l.filterMap (fun repoFullName =>
          (scanRepository config (envOf (ownerOf repoFullName) (repoOf repoFullName))
            (ownerOf repoFullName) (repoOf repoFullName)).toOption) := by
    intro l
    induction l with
    | nil => intro acc; simp
    | cons n ns ih =>
        intro acc
        simp only [List.foldl_cons, List.filterMap_cons]
        cases h : scanRepository config (envOf (ownerOf n) (repoOf n)) (ownerOf n) (repoOf n) with
        | ok r =>
            simp only [h, ih, Except.toOption, List.append_assoc, List.singleton_append]
        | error e =>
            simp only [h, ih, Except.toOption]
  exact main repos []

/-- Claim C5: `scanMultipleRepos` processes the input names sequentially; a
failure while scanning one repository is caught and that repository is
omitted, the batch runs to completion, and the returned array is exactly
the successful subset in input order (the `filterMap` of the per-repository
scans); in particular two inputs where the second one's identity lookup
throws yield exactly the first repository's result. -/
theorem scanMultipleRepos_spec :
    (∀ (config : ScannerConfig) (envOf : String → String → ScanEnv) (repos : List String),
      scanMultipleRepos config envOf repos
        = repos.filterMap (fun repoFullName =>
            (scanRepository config (envOf (ownerOf repoFullName) (repoOf repoFullName))
              (ownerOf repoFullName) (repoOf repoFullName)).toOption)) ∧
    (∀ (config : ScannerConfig) (envOf : String → String → ScanEnv)
        (name1 name2 : String) (r1 : RepoScanResult) (e : ApiError),
      scanRepository config (envOf (ownerOf name1) (repoOf name1))
        (ownerOf name1) (repoOf name1) = .ok r1 →
      scanRepository config (envOf (ownerOf name2) (repoOf name2))
        (ownerOf name2) (repoOf name2) = .error e →
      scanMultipleRepos config envOf [name1, name2] = [r1]) := by
  refine ⟨scanMultipleRepos_eq_filterMap, ?_⟩
  intro config envOf name1 name2 r1 e h1 h2
  rw [scanMultipleRepos_eq_filterMap]
  simp [h1, h2, Except.toOption]

def sampleEnvOf : String → String → ScanEnv :=
  fun _ repo => if repo = "repo1" then sampleScanEnv else failingScanEnv

theorem scanMultipleRepos_spec_witness :
    scanMultipleRepos sampleConfig sampleEnvOf ["a/repo1", "a/repo2"] = [sampleScanResult] :=
  scanMultipleRepos_spec.2 sampleConfig sampleEnvOf "a/repo1" "a/repo2" sampleScanResult
    { status := some 500, message := "boom" } (by rfl) (by rfl)

theorem critHigh_filter_empty_iff (F : List SecurityFinding) :
    (F.filter (fun f => f.severity == Severity.critical || f.severity == Severity.high)).length = 0
      ↔ ∀ f ∈ F, f.severity ≠ Severity.critical ∧ f.severity ≠ Severity.high := by
  rw [List.length_eq_zero, List.filter_eq_nil_iff]
  constructor
  · intro h f hf
    have hp := h f hf
    simp only [Bool.or_eq_true, beq_iff_eq, not_or] at hp
    exact hp
  · intro h f hf
    have hp := h f hf
    simp only [Bool.or_eq_true, beq_iff_eq, not_or]
    exact hp

/-- Claim C3: for every control in the compliance report, the status is
decided with this exact precedence over the control's pooled findings — no
critical/high finding and at most 2 pooled findings gives `compliant`; no
critical/high but more than 2 gives `partial`; any critical/high gives
`non-compliant` — and a control with zero pooled findings and zero evidence
resolves to `compliant`. -/
theorem generateSOC2Report_status (now : Nat) (scanResults : List RepoScanResult) :
    ∀ c ∈ (generateSOC2Report now scanResults).controls,
      ((∀ f ∈ c.findings, f.severity ≠ .critical ∧ f.severity ≠ .high) ∧
          c.findings.length ≤ 2 → c.status = .compliant) ∧
      ((∀ f ∈ c.findings, f.severity ≠ .critical ∧ f.severity ≠ .high) ∧
          2 < c.findings.length → c.status = .partialCompliance) ∧
      ((∃ f ∈ c.findings, f.severity = .critical ∨ f.severity = .high) →
        c.status = .nonCompliant) ∧
      (c.findings = [] ∧ c.evidence = [] → c.status = .compliant) := by
  intro c hc
  simp only [generateSOC2Report, List.mem_map] at hc
  obtain ⟨entry, hentry, rfl⟩ := hc
  dsimp only
  refine ⟨?_, ?_, ?_, ?_⟩
  · rintro ⟨hno, hlen⟩
    have hb : (decide
          (((controlFindingsFor scanResults entry.1).filter
            (fun f => f.severity == Severity.critical || f.severity == Severity.high)).length
              = 0)
        && decide ((controlFindingsFor scanResults entry.1).length ≤ 2)) = true := by
      rw [Bool.and_eq_true, decide_eq_true_eq, decide_eq_true_eq]
      exact ⟨(critHigh_filter_empty_iff _).mpr hno, hlen⟩
    rw [if_pos hb]
  · rintro ⟨hno, hlen⟩
    have hcrit := (critHigh_filter_empty_iff (controlFindingsFor scanResults entry.1)).mpr hno
    have hb : (decide
          (((controlFindingsFor scanResults entry.1).filter
            (fun f => f.severity == Severity.critical || f.severity == Severity.high)).length
              = 0)
        && decide ((controlFindingsFor scanResults entry.1).length ≤ 2)) = false := by
      rw [Bool.and_eq_false_iff]
      right
      simpa using Nat.not_le.mpr hlen
    rw [if_neg (by rw [hb]; simp), if_pos hcrit]
  · rintro ⟨f, hf, hsev⟩
    have hcrit : ¬ ((controlFindingsFor scanResults entry.1).filter
        (fun g => g.severity == Severity.critical || g.severity == Severity.high)).length = 0 := by
      rw [critHigh_filter_empty_iff]
      intro hall
      rcases hsev with h | h
      · exact (hall f hf).1 h
      · exact (hall f hf).2 h
    rw [if_neg (by simp [hcrit]), if_neg hcrit]
  · rintro ⟨hnil, -⟩
    have hb : (decide
          (((controlFindingsFor scanResults entry.1).filter
            (fun f => f.severity == Severity.critical || f.severity == Severity.high)).length
              = 0)
        && decide ((controlFindingsFor scanResults entry.1).length ≤ 2)) = true := by
      rw [Bool.and_eq_true, decide_eq_true_eq, decide_eq_true_eq]
      rw [hnil]
      exact ⟨rfl, by simp⟩
    rw [if_pos hb]

def fallbackControl : SOC2Control :=
  { id := "", name := "", description := "", status := .nonCompliant, findings := [], evidence := [] }

def sampleEmptyReportControl : SOC2Control :=
  ((generateSOC2Report 0 []).controls).getD 0 fallbackControl

theorem generateSOC2Report_status_witness :
    sampleEmptyReportControl.status = .compliant :=
  (generateSOC2Report_status 0 [] sampleEmptyReportControl (by decide)).2.2.2 ⟨by rfl, by rfl⟩

/-- Claim C9: the compliance mapper pools, per catalog control, exactly the
findings whose `soc2Control` matches that control, each appended as a copy
whose description is rewritten to be prefixed with the source repository's
full name; the copy agrees with the original finding on every other field
(the original finding value is untouched — the pooled entry is
`poolFinding`, a functional copy-with-override, exactly as the source
spreads the object). -/
theorem generateSOC2Report_pooling (now : Nat) (scanResults : List RepoScanResult) :
    ∀ c ∈ (generateSOC2Report now scanResults).controls,
      (∀ g ∈ c.findings, ∃ result ∈ scanResults, ∃ f ∈ result.findings,
        f.soc2Control = some c.id ∧
        g = poolFinding result.repository.fullName f ∧
        g.description = "[" ++ result.repository.fullName ++ "] " ++ f.description ∧
        g.id = f.id ∧ g.category = f.category ∧ g.severity = f.severity ∧
        g.title = f.title ∧ g.recommendation = f.recommendation ∧
        g.documentationUrl = f.documentationUrl ∧ g.soc2Control = f.soc2Control ∧
        g.currentValue = f.currentValue ∧ g.expectedValue = f.expectedValue) ∧
      (∀ result ∈ scanResults, ∀ f ∈ result.findings,
        f.soc2Control = some c.id →
        poolFinding result.repository.fullName f ∈ c.findings) := by
  intro c hc
  simp only [generateSOC2Report, List.mem_map] at hc
  obtain ⟨entry, hentry, rfl⟩ := hc
  dsimp only
  constructor
  · intro g hg
    rw [controlFindingsFor, List.mem_flatMap] at hg
    obtain ⟨result, hres, hgmem⟩ := hg
    rw [List.mem_filterMap] at hgmem
    obtain ⟨f, hf, hsome⟩ := hgmem
    refine ⟨result, hres, f, hf, ?_⟩
    cases hctl : f.soc2Control with
    | none => rw [hctl] at hsome; cases hsome
    | some cid =>
        rw [hctl] at hsome
        dsimp only at hsome
        by_cases hcid : cid = entry.1
        · subst hcid
          rw [if_pos rfl] at hsome
          simp only [Option.some.injEq] at hsome
          subst hsome
          exact ⟨rfl, rfl, rfl, rfl, rfl, rfl, rfl, rfl, rfl, hctl, rfl, rfl⟩
        · rw [if_neg hcid] at hsome
          cases hsome
  · intro result hres f hf hctl
    rw [controlFindingsFor, List.mem_flatMap]
    refine ⟨result, hres, ?_⟩
    rw [List.mem_filterMap]
    refine ⟨f, hf, ?_⟩
    rw [hctl]
    simp

def sampleScanResultWithFinding : RepoScanResult :=
  { repository :=
      { owner := "a"
        name := "repo1"
        fullName := "a/repo1"
        visibility := .privateRepo
        defaultBranch := "main"
        url := "https://github.com/a/repo1" }
    scannedAt := 0
    findings := [bpNotEnabled "main"]
    score := 75
    summary := { critical := 1, high := 0, medium := 0, low := 0, info := 0, passed := 0 } }

def samplePooledControl : SOC2Control :=
  ((generateSOC2Report 0 [sampleScanResultWithFinding]).controls).getD 0 fallbackControl

theorem generateSOC2Report_pooling_witness :
    poolFinding "a/repo1" (bpNotEnabled "main") ∈ samplePooledControl.findings :=
  (generateSOC2Report_pooling 0 [sampleScanResultWithFinding] samplePooledControl
      (by decide)).2
    sampleScanResultWithFinding (by decide) (bpNotEnabled "main") (by decide) (by decide)

/-- Claim C6: the remediation dispatcher never throws (it is total into
`FixResult × List FixCall`): every findingId outside the fixed 10-entry
action table returns `success := false` with error `UNSUPPORTED_FIX` and an
empty call trace (no provider call); and for every mapped findingId, when
the provider fails the error is caught at the dispatch boundary and
returned as `success := false` with the error's message. -/
theorem fixFinding_spec :
    (∀ (provider : FixCall → Except ApiError Unit) (owner repo findingId : String)
        (branch : Option String),
      findingId ∉ supportedFixIds →
      fixFinding provider owner repo findingId branch =
        ({ success := false
           findingId := findingId
           message := "No automatic fix available for this finding"
           error := some "UNSUPPORTED_FIX" }, [])) ∧
    (∀ (provider : FixCall → Except ApiError Unit) (owner repo findingId : String)
        (branch : Option String) (e : ApiError),
      (∀ call, provider call = .error e) →
      findingId ∈ supportedFixIds →
      (fixFinding provider owner repo findingId branch).1 =
        { success := false
          findingId := findingId
          message := "Failed: " ++ e.message
          error := some e.message }) := by
  constructor
  · intro provider owner repo findingId branch h
    simp only [supportedFixIds, List.mem_cons, List.mem_singleton, not_or] at h
    obtain ⟨h1, h2, h3, h4, h5, h6, h7, h8, h9, h10⟩ := h
    simp only [fixFinding, if_neg h1, if_neg h2, if_neg h3, if_neg h4, if_neg h5, if_neg h6,
      if_neg h7, if_neg h8, if_neg h9, if_neg h10.1]
  · intro provider owner repo findingId branch e hprov h
    simp only [supportedFixIds, List.mem_cons, List.mem_singleton] at h
    rcases h with rfl | rfl | rfl | rfl | rfl | rfl | rfl | rfl | rfl | rfl | h
    all_goals try (simp [fixFinding, hprov])
    cases h

theorem fixFinding_spec_witness :
    fixFinding (fun _ => .error { message := "boom" }) "a" "repo1" "unknown-id" none =
      ({ success := false
         findingId := "unknown-id"
         message := "No automatic fix available for this finding"
         error := some "UNSUPPORTED_FIX" }, []) ∧
    (fixFinding (fun _ => .error { message := "boom" }) "a" "repo1" "bp-not-enabled" none).1 =
      { success := false
        findingId := "bp-not-enabled"
        message := "Failed: boom"
        error := some "boom" } :=
  ⟨fixFinding_spec.1 (fun _ => .error { message := "boom" }) "a" "repo1" "unknown-id" none
      (by decide),
   fixFinding_spec.2 (fun _ => .error { message := "boom" }) "a" "repo1" "bp-not-enabled" none
      { message := "boom" } (fun _ => rfl) (by decide)⟩

end GhSec
